import Mathlib

/-!
# Session gateway of `whatsapp_service.js`

A shallow embedding of `src/MonitoramentoRegistroAtendimento/whatsapp_service.js`.

The script keeps one program variable, `isReady` (line 26).  Everything else it
touches belongs to collaborators: the provider object `client` (its `info`
field, its `sendMessage` and its start-up method), the timer queue of the
runtime (`setTimeout`) and the HTTP framework.  The embedding makes these
explicit:

* `World` holds `isReady`, the provider field `client.info`, a clock with the
  queue of pending timers, and the log of calls made into the provider;
* every callback registered with `client.on` is one case of `step`;
* the two route handlers are `postSend` and `getHealth`;
* the answer of the provider to a `sendMessage` call is an input of the
  request (`SendOutcome`), since the script cannot influence it.

Logging (`console.log`, `console.error`) is not recorded; the only thing kept
of a log line is whether evaluating its template literal can throw.
-/

namespace WhatsappService

/-! ## Values -/

/-- A value held by the body that `express.json()` parsed.
`composite` is an array or an object nested inside the body; the handler never
looks inside it, the only thing that matters is whether converting it to a
string succeeds (`printable`): an object with an own key `toString` bound to a
non-function makes the conversion throw a `TypeError`. -/
inductive JsVal
  | undefined
  | null
  | bool (b : Bool)
  | num (n : Int)
  | str (s : String)
  | composite (printable : Bool)
  deriving DecidableEq, Repr

/-- An object literal: its own properties, in order. -/
abbrev JsObj := List (String × JsVal)

/-- Property read `o.k`: `undefined` when the property is absent. -/
def getProp (o : JsObj) (k : String) : JsVal :=
  (o.lookup k).getD JsVal.undefined

/-- Whether the template literal `${v}` evaluates without throwing. -/
def templateOk : JsVal → Bool
  | JsVal.composite printable => printable
  | _ => true

/-- Message text of the `TypeError` raised by a failing string conversion. -/
def primitiveErrorText : String := "Cannot convert object to primitive value"

/-- Message text of the `TypeError` raised by line 64 when `req.body` is
`undefined`. -/
def destructureErrorText : String :=
  "Cannot destructure property \x27groupId\x27 of \x27req.body\x27 as it is undefined."

/-- The provider field `client.info`, as far as the script reads it:
`pushname` (lines 37 and 86) and `wid.user` (line 38). -/
structure ClientInfo where
  pushname : String
  user : String
  deriving DecidableEq, Repr

/-- A call made by the script into the provider: `client.initialize()`
(`init`, lines 54 and 59) or `client.sendMessage(groupId, message)` (line 73). -/
inductive ProviderCall
  | init
  | sendMessage (groupId message : JsVal)
  deriving DecidableEq, Repr

/-- Recognises the calls that start the provider. -/
def ProviderCall.isInit : ProviderCall → Bool
  | ProviderCall.init => true
  | ProviderCall.sendMessage _ _ => false

/-- Recognises the calls that send a message. -/
def ProviderCall.isSend : ProviderCall → Bool
  | ProviderCall.init => false
  | ProviderCall.sendMessage _ _ => true

/-- What a rejected `sendMessage` promise carries into the `catch` block:
an object with a textual `message` (any `Error`), a value on which reading
`.message` gives `undefined`, or `null`/`undefined`, on which reading
`.message` throws. -/
inductive Thrown
  | error (message : String)
  | noMessage
  | nullish
  deriving DecidableEq, Repr

/-- The answer of the provider to one `sendMessage` call. -/
inductive SendOutcome
  | resolved
  | rejected (t : Thrown)
  deriving DecidableEq, Repr

/-- An HTTP answer: status code and the object handed to `res.json`. -/
structure Reply where
  status : Nat
  body : JsObj
  deriving DecidableEq, Repr

/-- How a handler run ends: it answered, or a fault left the handler. -/
inductive HandlerResult
  | replied (r : Reply)
  | escaped
  deriving DecidableEq, Repr

/-! ## State -/

/-- The state the script runs in. `timers` holds the due time (ms) of each
pending `setTimeout` callback; every such callback is the closure of line 54. -/
structure World where
  isReady : Bool
  info : Option ClientInfo
  now : Nat
  timers : List Nat
  calls : List ProviderCall
  deriving DecidableEq, Repr

/-- The state once the script has been loaded: `isReady = false` (line 26),
no identity stored by the provider yet, and the one call of line 59 made. -/
def boot : World :=
  { isReady := false, info := none, now := 0, timers := [], calls := [ProviderCall.init] }

/-- Number of `client.initialize()` calls made so far. -/
def initCount (w : World) : Nat := w.calls.countP ProviderCall.isInit

/-- Number of `client.sendMessage` calls made so far. -/
def sendCount (w : World) : Nat := w.calls.countP ProviderCall.isSend

/-- Number of pending reconnect timers. -/
def pending (w : World) : Nat := w.timers.length

/-! ## Provider events (lines 28-56) -/

/-- Handler of `ready` (lines 34-39). The provider has stored the identity in
`client.info` before it emits the event; the handler sets the flag and logs. -/
def onReady (w : World) (identity : ClientInfo) : World :=
  { w with info := some identity, isReady := true }

/-- Handler of `disconnected` (lines 49-56): clears the flag and arms a timer
that is due 10000 ms from now. `client.info` is not touched. -/
def onDisconnected (w : World) : World :=
  { w with isReady := false, timers := w.timers ++ [w.now + 10000] }

/-- Runs the callbacks of all timers that are due: each one calls
`client.initialize()` (line 54) and leaves the queue. -/
def fireTimers (w : World) : World :=
  { w with
    timers := w.timers.filter (fun due => decide (w.now < due)),
    calls := w.calls ++
      List.replicate (w.timers.countP (fun due => decide (due ≤ w.now))) ProviderCall.init }

/-- Time passes: the clock advances by `ms` and the due timers fire. -/
def elapse (w : World) (ms : Nat) : World :=
  fireTimers { w with now := w.now + ms }

/-! ## Route handlers (lines 62-88) -/

/-- Answer of line 67. -/
def notReadyReply : Reply :=
  { status := 503,
    body := [("success", JsVal.bool false), ("error", JsVal.str "WhatsApp não está pronto")] }

/-- Answer of line 75 (`res.json` without `res.status`: 200). -/
def sentReply : Reply :=
  { status := 200,
    body := [("success", JsVal.bool true), ("message", JsVal.str "Alerta enviado")] }

/-- The `try` block of `POST /send` (lines 64-75): the new state and either the
answer it sent or the value it threw. `reqBody` is `req.body` as `express.json()`
leaves it: `some` parsed object (an array has neither of the two keys read
here), or `none` when it left `req.body` undefined, as the middleware of
express 5 does for a request without a JSON body. The destructuring of line 64
comes first: on an undefined `req.body` it throws before the flag is looked at. -/
def sendTry (w : World) (reqBody : Option JsObj) (outcome : SendOutcome) :
    World × Except Thrown Reply :=
  match reqBody with
  | none => (w, Except.error (Thrown.error destructureErrorText))
  | some body =>
    let groupId := getProp body "groupId"
    let message := getProp body "message"
    if !w.isReady then
      (w, Except.ok notReadyReply)
    else if !templateOk groupId then
      (w, Except.error (Thrown.error primitiveErrorText))
    else
      let w1 := { w with calls := w.calls ++ [ProviderCall.sendMessage groupId message] }
      match outcome with
      | SendOutcome.resolved => (w1, Except.ok sentReply)
      | SendOutcome.rejected t => (w1, Except.error t)

/-- The `catch` block of `POST /send` (lines 76-79). -/
def sendCatch : Thrown → HandlerResult
  | Thrown.error m =>
      HandlerResult.replied
        { status := 500, body := [("success", JsVal.bool false), ("error", JsVal.str m)] }
  | Thrown.noMessage =>
      HandlerResult.replied
        { status := 500, body := [("success", JsVal.bool false), ("error", JsVal.undefined)] }
  | Thrown.nullish => HandlerResult.escaped

/-- The handler of `POST /send` (lines 62-80). -/
def postSend (w : World) (reqBody : Option JsObj) (outcome : SendOutcome) :
    World × HandlerResult :=
  match sendTry w reqBody outcome with
  | (w1, Except.ok r) => (w1, HandlerResult.replied r)
  | (w1, Except.error t) => (w1, sendCatch t)

/-- The expression `client.info?.pushname || null` of line 86. -/
def pushnameOrNull (info : Option ClientInfo) : JsVal :=
  match info with
  | none => JsVal.null
  | some i => if i.pushname = "" then JsVal.null else JsVal.str i.pushname

/-- The handler of `GET /health` (lines 83-88). -/
def getHealth (w : World) : Reply :=
  { status := 200,
    body := [("ready", JsVal.bool w.isReady), ("pushname", pushnameOrNull w.info)] }

/-! ## Runs -/

/-- Everything that can happen to the running script. -/
inductive Event
  | qr (code : String)
  | ready (identity : ClientInfo)
  | authenticated
  | auth_failure (msg : String)
  | disconnected (reason : String)
  | elapse (ms : Nat)
  | postSend (reqBody : Option JsObj) (outcome : SendOutcome)
  | getHealth
  deriving DecidableEq, Repr

/-- One event handled to completion. -/
def step (w : World) : Event → World
  | Event.qr _ => w
  | Event.ready identity => onReady w identity
  | Event.authenticated => w
  | Event.auth_failure _ => w
  | Event.disconnected _ => onDisconnected w
  | Event.elapse ms => elapse w ms
  | Event.postSend body outcome => (postSend w body outcome).1
  | Event.getHealth => w

/-- A sequence of events handled in order. -/
def run (w : World) (es : List Event) : World := es.foldl step w

/-- Recognises `ready` events. -/
def Event.isReadyEv : Event → Bool
  | Event.ready _ => true
  | _ => false

/-- Recognises `disconnected` events. -/
def Event.isDisconnected : Event → Bool
  | Event.disconnected _ => true
  | _ => false

/-- Recognises `auth_failure` events. -/
def Event.isAuthFailure : Event → Bool
  | Event.auth_failure _ => true
  | _ => false

/-- Total time that passes during a sequence of events. -/
def elapsed : List Event → Nat
  | [] => 0
  | Event.elapse ms :: es => ms + elapsed es
  | _ :: es => elapsed es

/-- Once the clock has passed `T`, every timer still queued is due after `T`. -/
def lateOnly (T : Nat) (w : World) : Prop :=
  T ≤ w.now → ∀ d ∈ w.timers, T < d

/-! ## Basic facts about the handlers -/

theorem sendTry_frame (w : World) (body : Option JsObj) (outcome : SendOutcome) :
    (sendTry w body outcome).1.isReady = w.isReady ∧
    (sendTry w body outcome).1.info = w.info ∧
    (sendTry w body outcome).1.now = w.now ∧
    (sendTry w body outcome).1.timers = w.timers ∧
    initCount (sendTry w body outcome).1 = initCount w := by
  unfold sendTry
  cases body with
  | none => simp
  | some body =>
    by_cases h1 : w.isReady = true
    · by_cases h2 : templateOk (getProp body "groupId") = true
      · cases outcome <;> simp [h1, h2, initCount, ProviderCall.isInit]
      · simp [h1, h2]
    · simp [h1]

theorem postSend_fst (w : World) (body : Option JsObj) (outcome : SendOutcome) :
    (postSend w body outcome).1 = (sendTry w body outcome).1 := by
  unfold postSend
  rcases h : sendTry w body outcome with ⟨w1, r | r⟩ <;> rfl

theorem postSend_frame (w : World) (body : Option JsObj) (outcome : SendOutcome) :
    (postSend w body outcome).1.isReady = w.isReady ∧
    (postSend w body outcome).1.info = w.info ∧
    (postSend w body outcome).1.now = w.now ∧
    (postSend w body outcome).1.timers = w.timers ∧
    initCount (postSend w body outcome).1 = initCount w := by
  rw [postSend_fst]
  exact sendTry_frame w body outcome

theorem postSend_no_body (w : World) (outcome : SendOutcome) :
    postSend w none outcome =
      (w, HandlerResult.replied
        { status := 500,
          body := [("success", JsVal.bool false), ("error", JsVal.str destructureErrorText)] }) := by
  simp [postSend, sendTry, sendCatch]

theorem postSend_not_ready (w : World) (body : JsObj) (outcome : SendOutcome)
    (h : w.isReady = false) :
    postSend w (some body) outcome = (w, HandlerResult.replied notReadyReply) := by
  simp [postSend, sendTry, h]

theorem postSend_ready (w : World) (body : JsObj) (outcome : SendOutcome)
    (h : w.isReady = true) (hg : templateOk (getProp body "groupId") = true) :
    postSend w (some body) outcome =
      ({ w with calls := w.calls ++
            [ProviderCall.sendMessage (getProp body "groupId") (getProp body "message")] },
        match outcome with
        | SendOutcome.resolved => HandlerResult.replied sentReply
        | SendOutcome.rejected t => sendCatch t) := by
  cases outcome <;> simp [postSend, sendTry, h, hg]

/-! ## Readiness along a run -/

theorem run_nil (w : World) : run w [] = w := rfl

theorem run_cons (w : World) (e : Event) (es : List Event) :
    run w (e :: es) = run (step w e) es := rfl

theorem run_append (w : World) (es fs : List Event) :
    run w (es ++ fs) = run (run w es) fs := by
  simp [run, List.foldl_append]

theorem step_keeps_not_ready (w : World) (e : Event)
    (hw : w.isReady = false) (he : e.isReadyEv = false) : (step w e).isReady = false := by
  cases e with
  | ready identity => simp [Event.isReadyEv] at he
  | postSend body outcome => simp [step, (postSend_frame w body outcome).1, hw]
  | elapse ms => simpa [step, elapse, fireTimers] using hw
  | disconnected reason => simp [step, onDisconnected]
  | qr code => simpa [step] using hw
  | authenticated => simpa [step] using hw
  | auth_failure msg => simpa [step] using hw
  | getHealth => simpa [step] using hw

theorem run_keeps_not_ready (es : List Event) :
    ∀ w : World, w.isReady = false → (∀ e ∈ es, e.isReadyEv = false) →
      (run w es).isReady = false := by
  induction es with
  | nil => intro w hw _; simpa [run_nil] using hw
  | cons e es ih =>
    intro w hw hes
    rw [run_cons]
    exact ih (step w e) (step_keeps_not_ready w e hw (hes e (by simp)))
      (fun x hx => hes x (by simp [hx]))

/-! ## Timers along a run -/

theorem countP_due_add_length_filter (now : Nat) (ts : List Nat) :
    ts.countP (fun due => decide (due ≤ now)) +
      (ts.filter (fun due => decide (now < due))).length = ts.length := by
  induction ts with
  | nil => simp
  | cons t ts ih =>
    by_cases h : t ≤ now
    · have h2 : ¬ now < t := by omega
      simp [List.countP_cons, List.filter_cons, h, h2]
      omega
    · have h2 : now < t := by omega
      simp [List.countP_cons, List.filter_cons, h, h2]
      omega

theorem initCount_elapse (w : World) (ms : Nat) :
    initCount (elapse w ms) =
      initCount w + w.timers.countP (fun due => decide (due ≤ w.now + ms)) := by
  simp [initCount, elapse, fireTimers, List.countP_append, List.countP_replicate,
    ProviderCall.isInit]

theorem step_now (w : World) (e : Event) :
    (step w e).now = w.now + elapsed [e] := by
  cases e with
  | postSend body outcome => simp [step, elapsed, (postSend_frame w body outcome).2.2.1]
  | elapse ms => simp [step, elapse, fireTimers, elapsed]
  | _ => simp [step, elapsed, onReady, onDisconnected]

theorem elapsed_cons (e : Event) (es : List Event) :
    elapsed (e :: es) = elapsed [e] + elapsed es := by
  cases e <;> simp [elapsed]

theorem run_now (es : List Event) : ∀ w : World, (run w es).now = w.now + elapsed es := by
  induction es with
  | nil => intro w; simp [run_nil, elapsed]
  | cons e es ih =>
    intro w
    rw [run_cons, ih, step_now, elapsed_cons e es]
    omega

/-- Every step keeps the sum of start-up calls and pending timers, except that a
`disconnected` event adds one. -/
theorem step_conservation (w : World) (e : Event) :
    initCount (step w e) + pending (step w e) =
      initCount w + pending w + (if e.isDisconnected = true then 1 else 0) := by
  cases e with
  | postSend body outcome =>
    have h := postSend_frame w body outcome
    simp [step, pending, h.2.2.2.1, h.2.2.2.2, Event.isDisconnected]
  | elapse ms =>
    have h := countP_due_add_length_filter (w.now + ms) w.timers
    rw [show step w (Event.elapse ms) = elapse w ms from rfl, initCount_elapse]
    simp only [pending, elapse, fireTimers, Event.isDisconnected]
    simp
    omega
  | disconnected reason =>
    simp [step, onDisconnected, pending, initCount, Event.isDisconnected]
    omega
  | ready identity => simp [step, onReady, pending, initCount, Event.isDisconnected]
  | qr code => simp [step, Event.isDisconnected]
  | authenticated => simp [step, Event.isDisconnected]
  | auth_failure msg => simp [step, Event.isDisconnected]
  | getHealth => simp [step, Event.isDisconnected]

theorem run_conservation (es : List Event) : ∀ w : World,
    initCount (run w es) + pending (run w es) =
      initCount w + pending w + es.countP Event.isDisconnected := by
  induction es with
  | nil => intro w; simp [run_nil]
  | cons e es ih =>
    intro w
    rw [run_cons, ih, step_conservation, List.countP_cons]
    omega

/-- A timer that is not yet due stays in the queue. -/
theorem step_keeps_timer (w : World) (e : Event) (T : Nat)
    (hT : T ∈ w.timers) (hlt : w.now + elapsed [e] < T) : T ∈ (step w e).timers := by
  cases e with
  | postSend body outcome => simpa [step, (postSend_frame w body outcome).2.2.2.1] using hT
  | elapse ms =>
    simp only [elapsed] at hlt
    simp [step, elapse, fireTimers, List.mem_filter, hT]
    omega
  | disconnected reason => simp [step, onDisconnected, hT]
  | ready identity => simpa [step, onReady] using hT
  | qr code => simpa [step] using hT
  | authenticated => simpa [step] using hT
  | auth_failure msg => simpa [step] using hT
  | getHealth => simpa [step] using hT

theorem run_keeps_timer (es : List Event) (T : Nat) : ∀ w : World,
    T ∈ w.timers → w.now + elapsed es < T → T ∈ (run w es).timers := by
  induction es with
  | nil => intro w hT _; simpa [run_nil] using hT
  | cons e es ih =>
    intro w hT hlt
    rw [elapsed_cons] at hlt
    rw [run_cons]
    refine ih (step w e) (step_keeps_timer w e T hT (by omega)) ?_
    rw [step_now]
    omega

theorem step_lateOnly (w : World) (e : Event) (T : Nat) (h : lateOnly T w) :
    lateOnly T (step w e) := by
  cases e with
  | postSend body outcome =>
    have hf := postSend_frame w body outcome
    intro hnow d hd
    simp only [step, hf.2.2.1, hf.2.2.2.1] at hnow hd
    exact h hnow d hd
  | elapse ms =>
    intro hnow d hd
    simp [step, elapse, fireTimers, List.mem_filter] at hnow hd
    omega
  | disconnected reason =>
    intro hnow d hd
    simp [step, onDisconnected] at hnow hd
    rcases hd with hd | hd
    · exact h hnow d hd
    · omega
  | ready identity => intro hnow d hd; exact h hnow d hd
  | qr code => intro hnow d hd; exact h hnow d hd
  | authenticated => intro hnow d hd; exact h hnow d hd
  | auth_failure msg => intro hnow d hd; exact h hnow d hd
  | getHealth => intro hnow d hd; exact h hnow d hd

theorem run_lateOnly (es : List Event) (T : Nat) : ∀ w : World,
    lateOnly T w → lateOnly T (run w es) := by
  induction es with
  | nil => intro w h; simpa [run_nil] using h
  | cons e es ih =>
    intro w h
    rw [run_cons]
    exact ih (step w e) (step_lateOnly w e T h)

/-! ## Identity and readiness along a run -/

theorem step_info (w : World) (e : Event) (he : e.isReadyEv = false) :
    (step w e).info = w.info := by
  cases e with
  | ready identity => simp [Event.isReadyEv] at he
  | postSend body outcome => simp [step, (postSend_frame w body outcome).2.1]
  | elapse ms => simp [step, elapse, fireTimers]
  | disconnected reason => simp [step, onDisconnected]
  | qr code => simp [step]
  | authenticated => simp [step]
  | auth_failure msg => simp [step]
  | getHealth => simp [step]

theorem run_info (es : List Event) : ∀ w : World,
    (∀ e ∈ es, e.isReadyEv = false) → (run w es).info = w.info := by
  induction es with
  | nil => intro w _; rfl
  | cons e es ih =>
    intro w hes
    rw [run_cons, ih (step w e) (fun x hx => hes x (by simp [hx])),
      step_info w e (hes e (by simp))]

theorem step_keeps_ready (w : World) (e : Event)
    (hw : w.isReady = true) (he : e.isDisconnected = false) : (step w e).isReady = true := by
  cases e with
  | disconnected reason => simp [Event.isDisconnected] at he
  | postSend body outcome => simp [step, (postSend_frame w body outcome).1, hw]
  | elapse ms => simpa [step, elapse, fireTimers] using hw
  | ready identity => simp [step, onReady]
  | qr code => simpa [step] using hw
  | authenticated => simpa [step] using hw
  | auth_failure msg => simpa [step] using hw
  | getHealth => simpa [step] using hw

theorem run_keeps_ready (es : List Event) : ∀ w : World,
    w.isReady = true → (∀ e ∈ es, e.isDisconnected = false) → (run w es).isReady = true := by
  induction es with
  | nil => intro w hw _; simpa [run_nil] using hw
  | cons e es ih =>
    intro w hw hes
    rw [run_cons]
    exact ih (step w e) (step_keeps_ready w e hw (hes e (by simp)))
      (fun x hx => hes x (by simp [hx]))

/-- The flag is only ever set by a `ready` event, which comes with an identity. -/
theorem step_ready_has_info (w : World) (e : Event)
    (h : w.isReady = true → w.info ≠ none) :
    (step w e).isReady = true → (step w e).info ≠ none := by
  cases e with
  | ready identity => intro _; simp [step, onReady]
  | disconnected reason => intro hr; simp [step, onDisconnected] at hr
  | postSend body outcome =>
    have hf := postSend_frame w body outcome
    intro hr
    simp only [step, hf.1, hf.2.1] at hr ⊢
    exact h hr
  | elapse ms => intro hr; exact h hr
  | qr code => intro hr; exact h hr
  | authenticated => intro hr; exact h hr
  | auth_failure msg => intro hr; exact h hr
  | getHealth => intro hr; exact h hr

theorem run_ready_has_info (es : List Event) : ∀ w : World,
    (w.isReady = true → w.info ≠ none) →
      (run w es).isReady = true → (run w es).info ≠ none := by
  induction es with
  | nil => intro w h; simpa [run_nil] using h
  | cons e es ih =>
    intro w h
    rw [run_cons]
    exact ih (step w e) (step_ready_has_info w e h)

/-! ## Start-up calls along a run -/

theorem step_no_disconnect (w : World) (e : Event)
    (hw : w.timers = []) (he : e.isDisconnected = false) :
    (step w e).timers = [] ∧ initCount (step w e) = initCount w := by
  cases e with
  | disconnected reason => simp [Event.isDisconnected] at he
  | postSend body outcome =>
    have hf := postSend_frame w body outcome
    exact ⟨by simp [step, hf.2.2.2.1, hw], by simp [step, hf.2.2.2.2]⟩
  | elapse ms =>
    refine ⟨by simp [step, elapse, fireTimers, hw], ?_⟩
    rw [show step w (Event.elapse ms) = elapse w ms from rfl, initCount_elapse]
    simp [hw]
  | ready identity => exact ⟨by simpa [step, onReady] using hw, by simp [step, onReady, initCount]⟩
  | qr code => exact ⟨by simpa [step] using hw, by simp [step]⟩
  | authenticated => exact ⟨by simpa [step] using hw, by simp [step]⟩
  | auth_failure msg => exact ⟨by simpa [step] using hw, by simp [step]⟩
  | getHealth => exact ⟨by simpa [step] using hw, by simp [step]⟩

theorem run_no_disconnect (es : List Event) : ∀ w : World,
    w.timers = [] → (∀ e ∈ es, e.isDisconnected = false) →
      (run w es).timers = [] ∧ initCount (run w es) = initCount w := by
  induction es with
  | nil => intro w hw _; exact ⟨by simpa [run_nil] using hw, rfl⟩
  | cons e es ih =>
    intro w hw hes
    have h1 := step_no_disconnect w e hw (hes e (by simp))
    have h2 := ih (step w e) h1.1 (fun x hx => hes x (by simp [hx]))
    rw [run_cons]
    exact ⟨h2.1, by rw [h2.2, h1.2]⟩

theorem step_initCount_mono (w : World) (e : Event) : initCount w ≤ initCount (step w e) := by
  cases e with
  | postSend body outcome => simp [step, (postSend_frame w body outcome).2.2.2.2]
  | elapse ms =>
    rw [show step w (Event.elapse ms) = elapse w ms from rfl, initCount_elapse]
    omega
  | disconnected reason => simp [step, onDisconnected, initCount]
  | ready identity => simp [step, onReady, initCount]
  | qr code => simp [step]
  | authenticated => simp [step]
  | auth_failure msg => simp [step]
  | getHealth => simp [step]

theorem run_initCount_mono (es : List Event) : ∀ w : World,
    initCount w ≤ initCount (run w es) := by
  induction es with
  | nil => intro w; simp [run_nil]
  | cons e es ih =>
    intro w
    rw [run_cons]
    exact le_trans (step_initCount_mono w e) (ih (step w e))

/-- A pending timer has run its callback once its due time has been reached. -/
theorem run_fires_timer (es : List Event) (T : Nat) : ∀ w : World,
    T ∈ w.timers → w.now < T → T ≤ w.now + elapsed es →
      initCount w + 1 ≤ initCount (run w es) := by
  induction es with
  | nil => intro w _ h1 h2; simp [elapsed] at h2; omega
  | cons e es ih =>
    intro w hT hlt hle
    rw [run_cons]
    rw [elapsed_cons] at hle
    by_cases hfire : T ≤ w.now + elapsed [e]
    · have hstep : initCount w + 1 ≤ initCount (step w e) := by
        cases e with
        | elapse ms =>
          simp only [elapsed] at hfire
          rw [show step w (Event.elapse ms) = elapse w ms from rfl, initCount_elapse]
          have : 0 < w.timers.countP (fun due => decide (due ≤ w.now + ms)) :=
            List.countP_pos_iff.mpr ⟨T, hT, by simpa using hfire⟩
          omega
        | _ => simp [elapsed] at hfire; omega
      exact le_trans hstep (run_initCount_mono es (step w e))
    · have hT2 := step_keeps_timer w e T hT (by omega)
      have hnow := step_now w e
      have := ih (step w e) hT2 (by omega) (by omega)
      exact le_trans (by have := step_initCount_mono w e; omega) this

/-! ## The dispatch handler -/

/-- C1, as stated, fails: a request that arrives before any `ready` event and
for which the middleware left `req.body` undefined is answered with HTTP 500,
not 503, since line 64 throws before the flag is looked at. The provider is not
called. -/
theorem undefined_body_counterexample :
    boot.isReady = false ∧
    postSend boot none SendOutcome.resolved =
      (boot,
       HandlerResult.replied
         { status := 500,
           body := [("success", JsVal.bool false),
                    ("error", JsVal.str
                      "Cannot destructure property \x27groupId\x27 of \x27req.body\x27 as it is undefined.")] }) := by
  decide

/-- C1, amended: a `POST /send` handled while the session is not ready, that is
after a run with no `ready` event at all (`pre = []`) or with no `ready` event
since a `disconnected` event (the last event of `pre`), leaves the state as it
was, so `sendMessage` is not called, and is answered with `success: false`,
whatever the provider would have answered: with HTTP 503 whenever `req.body` is
a parsed body, whatever it holds, and with HTTP 500 when `req.body` is
undefined. -/
theorem send_not_ready_rejected (pre post : List Event) (reqBody : Option JsObj)
    (outcome : SendOutcome)
    (hpre : pre = [] ∨ ∃ rest reason, pre = rest ++ [Event.disconnected reason])
    (hpost : ∀ e ∈ post, e.isReadyEv = false) :
    (run boot (pre ++ post)).isReady = false ∧
    (postSend (run boot (pre ++ post)) reqBody outcome).1 = run boot (pre ++ post) ∧
    sendCount (postSend (run boot (pre ++ post)) reqBody outcome).1 =
      sendCount (run boot (pre ++ post)) ∧
    (∃ r, (postSend (run boot (pre ++ post)) reqBody outcome).2 = HandlerResult.replied r ∧
      getProp r.body "success" = JsVal.bool false) ∧
    (∀ body, reqBody = some body →
      (postSend (run boot (pre ++ post)) reqBody outcome).2 =
        HandlerResult.replied
          { status := 503,
            body := [("success", JsVal.bool false),
                     ("error", JsVal.str "WhatsApp não está pronto")] }) ∧
    (reqBody = none →
      (postSend (run boot (pre ++ post)) reqBody outcome).2 =
        HandlerResult.replied
          { status := 500,
            body := [("success", JsVal.bool false),
                     ("error", JsVal.str destructureErrorText)] }) := by
  have hflag : (run boot (pre ++ post)).isReady = false := by
    rw [run_append]
    refine run_keeps_not_ready post _ ?_ hpost
    rcases hpre with h | ⟨rest, reason, h⟩
    · subst h; rfl
    · subst h
      rw [run_append]
      rfl
  refine ⟨hflag, ?_⟩
  cases reqBody with
  | none =>
    rw [postSend_no_body]
    exact ⟨rfl, rfl, ⟨_, rfl, by decide⟩, fun body h => (by cases h), fun _ => rfl⟩
  | some body =>
    rw [postSend_not_ready (run boot (pre ++ post)) body outcome hflag]
    exact ⟨rfl, rfl, ⟨_, rfl, by decide⟩, fun _ _ => rfl, fun h => (by cases h)⟩

theorem send_not_ready_rejected_witness :
    (∀ e ∈ [Event.auth_failure "expired", Event.elapse 500], e.isReadyEv = false) ∧
    (postSend
        (run boot ([Event.ready ⟨"Ops", "5511999999999"⟩, Event.disconnected "lost"] ++
          [Event.auth_failure "expired", Event.elapse 500]))
        (some [("groupId", JsVal.str "g1"), ("message", JsVal.str "hi")])
        SendOutcome.resolved).2 =
      HandlerResult.replied
        { status := 503,
          body := [("success", JsVal.bool false),
                   ("error", JsVal.str "WhatsApp não está pronto")] } :=
  ⟨by decide,
   (send_not_ready_rejected
      [Event.ready ⟨"Ops", "5511999999999"⟩, Event.disconnected "lost"]
      [Event.auth_failure "expired", Event.elapse 500]
      (some [("groupId", JsVal.str "g1"), ("message", JsVal.str "hi")]) SendOutcome.resolved
      (Or.inr ⟨[Event.ready ⟨"Ops", "5511999999999"⟩], "lost", rfl⟩)
      (by decide)).2.2.2.2.1 _ rfl⟩

/-- C2: in state Ready, when the call of line 73 is made (the log line before it
evaluates) and the provider rejects it with an error whose message is `m`, the
handler answers HTTP 500 with body `{success: false, error: m}`; the run ends in
an answer, not in a fault that leaves the handler. -/
theorem provider_failure_is_500 (w : World) (body : JsObj) (m : String)
    (hready : w.isReady = true) (hlog : templateOk (getProp body "groupId") = true) :
    (postSend w (some body) (SendOutcome.rejected (Thrown.error m))).2 =
      HandlerResult.replied
        { status := 500, body := [("success", JsVal.bool false), ("error", JsVal.str m)] } ∧
    (postSend w (some body) (SendOutcome.rejected (Thrown.error m))).2 ≠
      HandlerResult.escaped ∧
    (postSend w (some body) (SendOutcome.rejected (Thrown.error m))).1.calls =
      w.calls ++ [ProviderCall.sendMessage (getProp body "groupId") (getProp body "message")] := by
  rw [postSend_ready w body _ hready hlog]
  simp [sendCatch]

theorem provider_failure_is_500_witness :
    (run boot [Event.ready ⟨"Ops", "5511999999999"⟩]).isReady = true ∧
    (postSend (run boot [Event.ready ⟨"Ops", "5511999999999"⟩])
        (some [("groupId", JsVal.str "5511888888888@c.us"), ("message", JsVal.str "hi")])
        (SendOutcome.rejected (Thrown.error "number not registered"))).2 =
      HandlerResult.replied
        { status := 500,
          body := [("success", JsVal.bool false), ("error", JsVal.str "number not registered")] } :=
  ⟨by decide,
   (provider_failure_is_500 (run boot [Event.ready ⟨"Ops", "5511999999999"⟩])
      [("groupId", JsVal.str "5511888888888@c.us"), ("message", JsVal.str "hi")]
      "number not registered" (by decide) (by decide)).1⟩

/-- C3: in state Ready, a request that carries a target identifier `t` and a
message `m` makes the handler call `sendMessage` exactly once, with `t` and `m`
as arguments, whether the provider then resolves or rejects; when it resolves,
the answer is HTTP 200 with `success: true`. -/
theorem send_forwards_once (w : World) (body : JsObj) (t m : String) (outcome : SendOutcome)
    (hready : w.isReady = true)
    (ht : getProp body "groupId" = JsVal.str t) (hm : getProp body "message" = JsVal.str m) :
    (postSend w (some body) outcome).1.calls =
      w.calls ++ [ProviderCall.sendMessage (JsVal.str t) (JsVal.str m)] ∧
    sendCount (postSend w (some body) outcome).1 = sendCount w + 1 ∧
    initCount (postSend w (some body) outcome).1 = initCount w ∧
    (outcome = SendOutcome.resolved →
      (postSend w (some body) outcome).2 =
        HandlerResult.replied
          { status := 200,
            body := [("success", JsVal.bool true), ("message", JsVal.str "Alerta enviado")] }) := by
  have hlog : templateOk (getProp body "groupId") = true := by rw [ht]; rfl
  rw [postSend_ready w body outcome hready hlog, ht, hm]
  refine ⟨rfl, ?_, ?_, ?_⟩
  · simp [sendCount, List.countP_append, ProviderCall.isSend]
  · simp [initCount, List.countP_append, ProviderCall.isInit]
  · intro h
    subst h
    rfl

theorem send_forwards_once_witness :
    (run boot [Event.ready ⟨"Ops", "5511999999999"⟩]).isReady = true ∧
    (postSend (run boot [Event.ready ⟨"Ops", "5511999999999"⟩])
        (some [("groupId", JsVal.str "g1"), ("message", JsVal.str "hi")])
        (SendOutcome.rejected Thrown.noMessage)).1.calls =
      (run boot [Event.ready ⟨"Ops", "5511999999999"⟩]).calls ++
        [ProviderCall.sendMessage (JsVal.str "g1") (JsVal.str "hi")] :=
  ⟨by decide,
   (send_forwards_once (run boot [Event.ready ⟨"Ops", "5511999999999"⟩])
      [("groupId", JsVal.str "g1"), ("message", JsVal.str "hi")] "g1" "hi"
      (SendOutcome.rejected Thrown.noMessage) (by decide) (by decide) (by decide)).1⟩

/-- C4, as stated, fails: in state Ready a body without the target identifier
is not rejected. The handler calls `sendMessage` once, with `undefined` as the
target, and answers HTTP 200 with `success: true`. -/
theorem missing_target_counterexample :
    (run boot [Event.ready ⟨"Ops", "5511999999999"⟩]).isReady = true ∧
    getProp [("message", JsVal.str "hi")] "groupId" = JsVal.undefined ∧
    postSend (run boot [Event.ready ⟨"Ops", "5511999999999"⟩])
        (some [("message", JsVal.str "hi")]) SendOutcome.resolved =
      ({ isReady := true, info := some ⟨"Ops", "5511999999999"⟩, now := 0, timers := [],
         calls := [ProviderCall.init,
                   ProviderCall.sendMessage JsVal.undefined (JsVal.str "hi")] },
       HandlerResult.replied
         { status := 200,
           body := [("success", JsVal.bool true), ("message", JsVal.str "Alerta enviado")] }) ∧
    sendCount (postSend (run boot [Event.ready ⟨"Ops", "5511999999999"⟩])
        (some [("message", JsVal.str "hi")]) SendOutcome.resolved).1 = 1 := by
  decide

/-- C4, amended: the handler does not validate the body. A request for which
`req.body` is undefined is answered with HTTP 500 and `success: false` in every
state, and the provider is not called. For a parsed body whose target identifier
(absent, or a string) or message is missing or empty: in a state that is not
Ready the answer is HTTP 503 and the provider is not called; in state Ready
`sendMessage` is called exactly once with what the body holds (`undefined` for a
missing field), and a provider success is answered with HTTP 200 and
`success: true`. -/
theorem missing_fields_not_validated (w : World) (body : JsObj) (outcome : SendOutcome)
    (htarget : getProp body "groupId" = JsVal.undefined ∨
      ∃ t, getProp body "groupId" = JsVal.str t)
    (_hmissing : getProp body "groupId" = JsVal.undefined ∨
      getProp body "groupId" = JsVal.str "" ∨
      getProp body "message" = JsVal.undefined ∨
      getProp body "message" = JsVal.str "") :
    postSend w none outcome =
      (w, HandlerResult.replied
        { status := 500,
          body := [("success", JsVal.bool false),
                   ("error", JsVal.str destructureErrorText)] }) ∧
    (w.isReady = false →
      postSend w (some body) outcome = (w, HandlerResult.replied notReadyReply) ∧
      notReadyReply.status = 503) ∧
    (w.isReady = true →
      (postSend w (some body) outcome).1.calls =
        w.calls ++ [ProviderCall.sendMessage (getProp body "groupId") (getProp body "message")] ∧
      sendCount (postSend w (some body) outcome).1 = sendCount w + 1 ∧
      (outcome = SendOutcome.resolved →
        (postSend w (some body) outcome).2 =
          HandlerResult.replied
            { status := 200,
              body := [("success", JsVal.bool true),
                       ("message", JsVal.str "Alerta enviado")] })) := by
  have hlog : templateOk (getProp body "groupId") = true := by
    rcases htarget with h | ⟨t, h⟩ <;> rw [h] <;> rfl
  refine ⟨postSend_no_body w outcome,
    fun h => ⟨postSend_not_ready w body outcome h, rfl⟩, fun h => ?_⟩
  rw [postSend_ready w body outcome h hlog]
  refine ⟨rfl, ?_, ?_⟩
  · simp [sendCount, List.countP_append, ProviderCall.isSend]
  · intro ho
    subst ho
    rfl

theorem missing_fields_not_validated_witness :
    getProp [("groupId", JsVal.str "g1")] "message" = JsVal.undefined ∧
    (run boot [Event.ready ⟨"Ops", "5511999999999"⟩]).isReady = true ∧
    (postSend (run boot [Event.ready ⟨"Ops", "5511999999999"⟩])
        (some [("groupId", JsVal.str "g1")]) SendOutcome.resolved).1.calls =
      (run boot [Event.ready ⟨"Ops", "5511999999999"⟩]).calls ++
        [ProviderCall.sendMessage (getProp [("groupId", JsVal.str "g1")] "groupId")
          (getProp [("groupId", JsVal.str "g1")] "message")] :=
  ⟨by decide, by decide,
   ((missing_fields_not_validated (run boot [Event.ready ⟨"Ops", "5511999999999"⟩])
      [("groupId", JsVal.str "g1")] SendOutcome.resolved
      (Or.inr ⟨"g1", by decide⟩) (Or.inr (Or.inr (Or.inl (by decide))))).2.2 (by decide)).1⟩

/-! ## Reconnection -/

/-- C5, as stated, fails: two `disconnected` events in a row leave two timers
pending, and once the delay has passed `client.initialize()` has been called
three times: at start-up and once for each of the two timers. -/
theorem second_disconnect_counterexample :
    pending (run boot [Event.disconnected "lost", Event.disconnected "lost again"]) = 2 ∧
    (run boot [Event.disconnected "lost", Event.disconnected "lost again"]).timers =
      [10000, 10000] ∧
    initCount (run boot [Event.disconnected "lost", Event.disconnected "lost again",
      Event.elapse 10000]) = 3 ∧
    initCount boot = 1 := by
  decide

/-- C5, amended: every `disconnected` event arms a timer of its own, whether or
not one is pending, and every timer calls `client.initialize()` exactly once when
it fires. So when a second `disconnected` event arrives `dt < 10000` ms after the
first, two timers are pending, both have fired 10000 ms later, and the provider
has been started twice more. Along any run from start-up, the calls made by
timers plus the timers still pending equal the `disconnected` events seen. -/
theorem each_disconnect_arms_a_timer (w : World) (r1 r2 : String) (dt : Nat) (es : List Event)
    (hw : w.timers = []) (hdt : dt < 10000) :
    pending (step w (Event.disconnected r1)) = pending w + 1 ∧
    pending (run w [Event.disconnected r1, Event.elapse dt, Event.disconnected r2]) = 2 ∧
    initCount (run w [Event.disconnected r1, Event.elapse dt, Event.disconnected r2]) =
      initCount w ∧
    pending (run w [Event.disconnected r1, Event.elapse dt, Event.disconnected r2,
      Event.elapse 10000]) = 0 ∧
    initCount (run w [Event.disconnected r1, Event.elapse dt, Event.disconnected r2,
      Event.elapse 10000]) = initCount w + 2 ∧
    initCount (run boot es) + pending (run boot es) =
      1 + es.countP Event.isDisconnected := by
  have h1 : w.now + dt < w.now + 10000 := by omega
  have h2 : ¬ (w.now + 10000 ≤ w.now + dt) := by omega
  have h3 : ¬ (dt + 10000 < 10000) := by omega
  refine ⟨?_, ?_, ?_, ?_, ?_, ?_⟩
  · simp [step, onDisconnected, pending]
  · simp [run, step, onDisconnected, elapse, fireTimers, pending, hw, hdt]
  · simp [run, step, onDisconnected, elapse, fireTimers, initCount, hw, hdt, h2,
      List.countP_cons, List.countP_append, ProviderCall.isInit]
  · simp [run, step, onDisconnected, elapse, fireTimers, pending, hw, hdt, h3,
      Nat.add_assoc]
  · simp [run, step, onDisconnected, elapse, fireTimers, initCount, hw, hdt, h2, h3,
      List.countP_cons, List.countP_append, ProviderCall.isInit, Nat.add_assoc]
  · have h := run_conservation es boot
    have hb : initCount boot = 1 := by decide
    have hp : pending boot = 0 := by decide
    omega

theorem each_disconnect_arms_a_timer_witness :
    boot.timers = [] ∧ 2500 < 10000 ∧
    initCount (run boot [Event.disconnected "lost", Event.elapse 2500,
      Event.disconnected "lost again", Event.elapse 10000]) = initCount boot + 2 :=
  ⟨by decide, by decide,
   (each_disconnect_arms_a_timer boot "lost" "lost again" 2500 [] (by decide)
      (by decide)).2.2.2.2.1⟩

/-- C6: after start-up, a run made only of `auth_failure` events (and of time
passing between them) never has a reconnect timer pending and never calls
`client.initialize()` again: the only such call is the one made at start-up. -/
theorem auth_failure_never_reconnects (es : List Event)
    (hes : ∀ e ∈ es, e.isAuthFailure = true ∨ ∃ ms, e = Event.elapse ms) :
    pending (run boot es) = 0 ∧ (run boot es).timers = [] ∧ initCount (run boot es) = 1 := by
  have hnd : ∀ e ∈ es, e.isDisconnected = false := by
    intro e he
    rcases hes e he with h | ⟨ms, h⟩
    · cases e <;> simp_all [Event.isAuthFailure, Event.isDisconnected]
    · subst h; rfl
  have h := run_no_disconnect es boot rfl hnd
  refine ⟨by simp [pending, h.1], h.1, ?_⟩
  rw [h.2]
  decide

theorem auth_failure_never_reconnects_witness :
    (∀ e ∈ [Event.auth_failure "expired", Event.auth_failure "expired", Event.elapse 60000,
        Event.auth_failure "refused"],
      e.isAuthFailure = true ∨ ∃ ms, e = Event.elapse ms) ∧
    initCount (run boot [Event.auth_failure "expired", Event.auth_failure "expired",
      Event.elapse 60000, Event.auth_failure "refused"]) = 1 :=
  ⟨by simp [Event.isAuthFailure],
   (auth_failure_never_reconnects
      [Event.auth_failure "expired", Event.auth_failure "expired", Event.elapse 60000,
        Event.auth_failure "refused"] (by simp [Event.isAuthFailure])).2.2⟩

/-- C7: every `disconnected` event, in whatever state `w` it arrives, clears the
flag at once and arms a timer due exactly 10000 ms later. Along any continuation
`es`: the session stays not ready as long as no `ready` event arrives; while less
than 10000 ms have passed that timer is still pending; once 10000 ms have passed
it has left the queue and `client.initialize()` has been called again; and every
timer that leaves the queue makes exactly one such call. With no other timer
pending, the call is made after exactly 10000 ms and not before. -/
theorem disconnected_arms_reconnect (w : World) (reason : String) (es : List Event) :
    (step w (Event.disconnected reason)).isReady = false ∧
    (step w (Event.disconnected reason)).timers = w.timers ++ [w.now + 10000] ∧
    ((∀ e ∈ es, e.isReadyEv = false) →
      (run (step w (Event.disconnected reason)) es).isReady = false) ∧
    (elapsed es < 10000 →
      w.now + 10000 ∈ (run (step w (Event.disconnected reason)) es).timers) ∧
    (10000 ≤ elapsed es →
      w.now + 10000 ∉ (run (step w (Event.disconnected reason)) es).timers ∧
      initCount w + 1 ≤ initCount (run (step w (Event.disconnected reason)) es)) ∧
    initCount (run (step w (Event.disconnected reason)) es) +
        pending (run (step w (Event.disconnected reason)) es) =
      initCount w + pending w + 1 + es.countP Event.isDisconnected ∧
    (w.timers = [] → ∀ ms,
      initCount (elapse (step w (Event.disconnected reason)) ms) =
        initCount w + (if 10000 ≤ ms then 1 else 0)) := by
  have hmem : w.now + 10000 ∈ (step w (Event.disconnected reason)).timers := by
    simp [step, onDisconnected]
  have hnow : (step w (Event.disconnected reason)).now = w.now := rfl
  have hinit : initCount (step w (Event.disconnected reason)) = initCount w := rfl
  refine ⟨rfl, rfl, ?_, ?_, ?_, ?_, ?_⟩
  · exact fun h => run_keeps_not_ready es _ rfl h
  · intro h
    exact run_keeps_timer es _ _ hmem (by rw [hnow]; omega)
  · intro h
    constructor
    · have hlate : lateOnly (w.now + 10000) (step w (Event.disconnected reason)) := by
        intro hle
        rw [hnow] at hle
        omega
      have hrun := run_lateOnly es (w.now + 10000) _ hlate
      intro hin
      have := hrun (by rw [run_now, hnow]; omega) _ hin
      omega
    · have := run_fires_timer es (w.now + 10000) _ hmem (by rw [hnow]; omega)
        (by rw [hnow]; omega)
      rw [hinit] at this
      exact this
  · have h := run_conservation es (step w (Event.disconnected reason))
    have hs := step_conservation w (Event.disconnected reason)
    simp only [Event.isDisconnected, if_true] at hs
    omega
  · intro hw ms
    rw [initCount_elapse, hinit]
    by_cases h : 10000 ≤ ms <;> simp [step, onDisconnected, hw, h]

theorem disconnected_arms_reconnect_witness :
    10000 ≤ elapsed [Event.elapse 4000, Event.getHealth, Event.elapse 6000] ∧
    initCount boot + 1 ≤
      initCount (run (step boot (Event.disconnected "lost"))
        [Event.elapse 4000, Event.getHealth, Event.elapse 6000]) :=
  ⟨by decide,
   ((disconnected_arms_reconnect boot "lost"
      [Event.elapse 4000, Event.getHealth, Event.elapse 6000]).2.2.2.2.1 (by decide)).2⟩

/-! ## Health and identity -/

/-- C8, as stated, fails: after a `ready` event with the name "Ops" and then a
`disconnected` event, `GET /health` reports `ready: false` together with the
name "Ops", which nothing has cleared. In the other direction, a `ready` event
whose identity has an empty name is reported as `ready: true` with a null name,
by the `|| null` of line 86. -/
theorem stale_identity_counterexample :
    getHealth (run boot [Event.ready ⟨"Ops", "5511999999999"⟩, Event.disconnected "lost"]) =
      { status := 200,
        body := [("ready", JsVal.bool false), ("pushname", JsVal.str "Ops")] } ∧
    (run boot [Event.ready ⟨"Ops", "5511999999999"⟩, Event.disconnected "lost"]).info =
      some ⟨"Ops", "5511999999999"⟩ ∧
    getHealth (run boot [Event.ready ⟨"", "5511999999999"⟩]) =
      { status := 200, body := [("ready", JsVal.bool true), ("pushname", JsVal.null)] } := by
  decide

/-- C8, amended: `GET /health` always answers HTTP 200 with the current flag.
Before the first `ready` event it reports `ready: false` and a null name. From a
`ready` event with a non-empty name until the next `disconnected` or `ready`
event it reports `ready: true` and that name. A `disconnected` event turns the
report to `ready: false` and leaves the reported name as it was. In every state
reached from start-up, `ready: true` is reported only when the provider has
stored an identity. -/
theorem health_reports_flag_and_stored_name (w : World) (identity : ClientInfo)
    (reason : String) (es : List Event) :
    (getHealth w).status = 200 ∧
    getProp (getHealth w).body "ready" = JsVal.bool w.isReady ∧
    ((∀ e ∈ es, e.isReadyEv = false) →
      getHealth (run boot es) =
        { status := 200, body := [("ready", JsVal.bool false), ("pushname", JsVal.null)] }) ∧
    (identity.pushname ≠ "" →
      (∀ e ∈ es, e.isReadyEv = false ∧ e.isDisconnected = false) →
      getHealth (run (step w (Event.ready identity)) es) =
        { status := 200,
          body := [("ready", JsVal.bool true),
                   ("pushname", JsVal.str identity.pushname)] }) ∧
    getProp (getHealth (step w (Event.disconnected reason))).body "ready" = JsVal.bool false ∧
    getProp (getHealth (step w (Event.disconnected reason))).body "pushname" =
      getProp (getHealth w).body "pushname" ∧
    ((run boot es).isReady = true → (run boot es).info ≠ none) := by
  refine ⟨rfl, by simp [getHealth, getProp, List.lookup], ?_, ?_, ?_, ?_, ?_⟩
  · intro h
    have h1 := run_keeps_not_ready es boot rfl h
    have h2 : (run boot es).info = none := (run_info es boot h).trans rfl
    simp [getHealth, h1, h2, pushnameOrNull]
  · intro hname h
    have h1 := run_keeps_ready es (step w (Event.ready identity)) rfl (fun e he => (h e he).2)
    have h2 := run_info es (step w (Event.ready identity)) (fun e he => (h e he).1)
    have h3 : (step w (Event.ready identity)).info = some identity := rfl
    simp [getHealth, h1, h2, h3, pushnameOrNull, hname]
  · simp [getHealth, getProp, List.lookup, step, onDisconnected]
  · simp [getHealth, getProp, List.lookup, step, onDisconnected]
  · exact run_ready_has_info es boot (by simp [boot])

theorem health_reports_flag_and_stored_name_witness :
    (⟨"Ops", "5511999999999"⟩ : ClientInfo).pushname ≠ "" ∧
    (∀ e ∈ [Event.authenticated, Event.getHealth],
      e.isReadyEv = false ∧ e.isDisconnected = false) ∧
    getHealth (run (step boot (Event.ready ⟨"Ops", "5511999999999"⟩))
        [Event.authenticated, Event.getHealth]) =
      { status := 200,
        body := [("ready", JsVal.bool true),
                 ("pushname", JsVal.str (⟨"Ops", "5511999999999"⟩ : ClientInfo).pushname)] } :=
  ⟨by decide, by decide,
   (health_reports_flag_and_stored_name boot ⟨"Ops", "5511999999999"⟩ "lost"
      [Event.authenticated, Event.getHealth]).2.2.2.1 (by decide) (by decide)⟩

/-- C9, as stated, fails: an `auth_failure` event received in state Ready leaves
the session Ready. Right after it `GET /health` reports `ready: true`, and a
`POST /send` is forwarded to the provider and answered with HTTP 200. -/
theorem auth_failure_in_ready_counterexample :
    getHealth (run boot [Event.ready ⟨"Ops", "5511999999999"⟩,
        Event.auth_failure "expired"]) =
      { status := 200, body := [("ready", JsVal.bool true), ("pushname", JsVal.str "Ops")] } ∧
    postSend (run boot [Event.ready ⟨"Ops", "5511999999999"⟩, Event.auth_failure "expired"])
        (some [("groupId", JsVal.str "g1"), ("message", JsVal.str "hi")])
        SendOutcome.resolved =
      ({ isReady := true, info := some ⟨"Ops", "5511999999999"⟩, now := 0, timers := [],
         calls := [ProviderCall.init,
                   ProviderCall.sendMessage (JsVal.str "g1") (JsVal.str "hi")] },
       HandlerResult.replied
         { status := 200,
           body := [("success", JsVal.bool true), ("message", JsVal.str "Alerta enviado")] }) := by
  decide

/-- C9, amended: `auth_failure` events, however many and in whatever state they
arrive, change nothing. The state after them is the state before them, so
`GET /health` and every `POST /send` answer exactly as they would have answered
before: a Ready session stays Ready, a session that is not ready stays so. -/
theorem auth_failure_changes_nothing (w : World) (msgs : List String)
    (body : Option JsObj) (outcome : SendOutcome) :
    run w (msgs.map Event.auth_failure) = w ∧
    (run w (msgs.map Event.auth_failure)).isReady = w.isReady ∧
    getHealth (run w (msgs.map Event.auth_failure)) = getHealth w ∧
    postSend (run w (msgs.map Event.auth_failure)) body outcome = postSend w body outcome := by
  have h : run w (msgs.map Event.auth_failure) = w := by
    induction msgs with
    | nil => rfl
    | cons m ms ih => simpa [run_cons, step] using ih
  simp [h]

/-! ## Wire format -/

/-- C10, as stated, fails. After the `ready` event the health answer carries the
key `pushname`, there is no key `identityName`; the body
`{target: "g1", message: "hi"}` makes the handler call the provider with
`undefined` as the target, since it reads the key `groupId`; the success answer
says "Alerta enviado", and the 503 answer says "WhatsApp não está pronto". -/
theorem wire_format_counterexample :
    getHealth (run boot [Event.ready ⟨"Ops", "5511999999999"⟩]) ≠
      { status := 200,
        body := [("ready", JsVal.bool true), ("identityName", JsVal.str "Ops")] } ∧
    getProp (getHealth (run boot [Event.ready ⟨"Ops", "5511999999999"⟩])).body "identityName" =
      JsVal.undefined ∧
    (postSend (run boot [Event.ready ⟨"Ops", "5511999999999"⟩])
        (some [("target", JsVal.str "g1"), ("message", JsVal.str "hi")])
        SendOutcome.resolved).1.calls =
      [ProviderCall.init, ProviderCall.sendMessage JsVal.undefined (JsVal.str "hi")] ∧
    (postSend (run boot [Event.ready ⟨"Ops", "5511999999999"⟩])
        (some [("target", JsVal.str "g1"), ("message", JsVal.str "hi")])
        SendOutcome.resolved).2 ≠
      HandlerResult.replied
        { status := 200,
          body := [("success", JsVal.bool true), ("message", JsVal.str "sent")] } ∧
    (postSend boot (some [("target", JsVal.str "g1"), ("message", JsVal.str "hi")])
        SendOutcome.resolved).2 ≠
      HandlerResult.replied
        { status := 503,
          body := [("success", JsVal.bool false), ("error", JsVal.str "session not ready")] } := by
  decide

/-- C10, amended: after start-up and a `ready` event with the identity
`{name: "Ops", id: "5511999999999"}`, `GET /health` answers exactly
`{ready: true, pushname: "Ops"}`; `POST /send` with the body
`{groupId: "g1", message: "hi"}` and the provider succeeding calls the provider
once with target "g1" and text "hi" and answers HTTP 200 with exactly
`{success: true, message: "Alerta enviado"}`; before any `ready` event the same
request is answered with HTTP 503 and exactly
`{success: false, error: "WhatsApp não está pronto"}`, without a provider call. -/
theorem wire_format_scenario :
    getHealth (run boot [Event.ready ⟨"Ops", "5511999999999"⟩]) =
      { status := 200, body := [("ready", JsVal.bool true), ("pushname", JsVal.str "Ops")] } ∧
    postSend (run boot [Event.ready ⟨"Ops", "5511999999999"⟩])
        (some [("groupId", JsVal.str "g1"), ("message", JsVal.str "hi")])
        SendOutcome.resolved =
      ({ isReady := true, info := some ⟨"Ops", "5511999999999"⟩, now := 0, timers := [],
         calls := [ProviderCall.init,
                   ProviderCall.sendMessage (JsVal.str "g1") (JsVal.str "hi")] },
       HandlerResult.replied
         { status := 200,
           body := [("success", JsVal.bool true), ("message", JsVal.str "Alerta enviado")] }) ∧
    postSend boot (some [("groupId", JsVal.str "g1"), ("message", JsVal.str "hi")])
        SendOutcome.resolved =
      (boot,
       HandlerResult.replied
         { status := 503,
           body := [("success", JsVal.bool false),
                    ("error", JsVal.str "WhatsApp não está pronto")] }) := by
  decide

end WhatsappService
